import Mathlib

/-!
Shallow embedding of the phishing-detection service's feature-extraction and
prediction core (`app/server.py`), together with theorems settling the
specification's claims about it.

The embedding keeps the source's structure: each Python signal function becomes
a Lean function of the same name.  External collaborators are made explicit:

* the standard library's URL parser (`urllib.parse.urlparse(...).netloc` /
  `.path`) is reimplemented at the fidelity the code exercises (scheme split,
  the `//`-introduced network location, the "Invalid IPv6 URL" `ValueError` on
  unbalanced brackets);
* the network collaborators (DNS resolver, WHOIS client, HTTP fetch plus HTML
  parse) are an environment record of deterministic oracles, so every run of
  the embedded code is a pure function of the environment;
* a function that can let a Python exception escape returns `Except PyExn`;
  a function whose failures are all swallowed internally returns `Int`.

Numeric feature values are `Int` (Python ints), probabilities are `Rat`
(the float arithmetic performed on them — a division, a multiplication and
threshold comparisons — is represented exactly).
-/

namespace Phish

/-- A Python exception escaping a function.  Only the classes the embedded
code can actually let escape are distinguished. -/
inductive PyExn
  | typeError       -- e.g. `"-" in None`
  | valueError      -- e.g. urlsplit's "Invalid IPv6 URL", dns name from None
  | attributeError  -- e.g. `None.count`
  | resolverError   -- a dns.resolver exception outside the caught tuple, e.g. NoNameservers
  deriving DecidableEq

/-! ## URL parsing (`urllib.parse`, as used by `get_domain` and
`double_slash_redirecting`) -/

/-- Characters allowed in a URL scheme after the leading letter
(`urllib.parse.scheme_chars`). -/
def scheme_char (c : Char) : Bool :=
  c.isAlphanum || c = '+' || c = '-' || c = '.'

/-- Split a character list at its first colon, if any. -/
def splitOnColon : List Char → Option (List Char × List Char)
  | [] => none
  | c :: cs =>
    if c = ':' then some ([], cs)
    else
      match splitOnColon cs with
      | some (pre, post) => some (c :: pre, post)
      | none => none

/-- CPython's scheme split: `url[:i]` before the first `:` is a scheme when it
is nonempty, starts with a letter and uses only scheme characters; the scheme
is lowercased. -/
def splitScheme (url : String) : String × String :=
  match splitOnColon url.data with
  | some (pre, post) =>
    if pre ≠ [] ∧ (pre.headD ' ').isAlpha ∧ pre.all scheme_char then
      (String.mk (pre.map Char.toLower), String.mk post)
    else ("", url)
  | none => ("", url)

/-- A character that ends the network-location part. -/
def netloc_end (c : Char) : Bool :=
  c = '/' || c = '?' || c = '#'

/-- A character that ends the path (start of query or fragment). -/
def path_end (c : Char) : Bool :=
  c = '?' || c = '#'

/-- The components of `urllib.parse.urlparse` the code reads. -/
structure UrlParts where
  scheme : String
  netloc : String
  path : String
  deriving DecidableEq

/-- `urllib.parse.urlparse`, restricted to the scheme/netloc/path components
the code reads.  Raises `ValueError` ("Invalid IPv6 URL") when the network
location has an unbalanced bracket, as CPython does.  (Control-character
stripping and the params split are omitted: neither can affect the components
as read by the code under study.) -/
def urlsplit (url : String) : Except PyExn UrlParts :=
  let (scheme, rest) := splitScheme url
  match rest.data with
  | '/' :: '/' :: after =>
    let netloc := after.takeWhile (fun c => !netloc_end c)
    let remainder := after.dropWhile (fun c => !netloc_end c)
    if (netloc.contains '[' && !netloc.contains ']') ||
       (netloc.contains ']' && !netloc.contains '[') then
      .error .valueError
    else
      .ok ⟨scheme, String.mk netloc, String.mk (remainder.takeWhile (fun c => !path_end c))⟩
  | chars => .ok ⟨scheme, "", String.mk (chars.takeWhile (fun c => !path_end c))⟩

/-- `get_domain`: `urlparse(url).netloc`, with every exception swallowed into
`None` by its own try/except. -/
def get_domain (url : String) : Option String :=
  match urlsplit url with
  | .ok p => some p.netloc
  | .error _ => none

/-! ## List-of-characters substring helpers (for `in` on Python strings) -/

/-- `needle` is a prefix of `hay`. -/
def leadsWith : List Char → List Char → Bool
  | [], _ => true
  | _ :: _, [] => false
  | a :: as, b :: bs => a = b && leadsWith as bs

/-- `needle` occurs contiguously inside `hay` (Python's `needle in hay`). -/
def occursIn (needle : List Char) : List Char → Bool
  | [] => needle.isEmpty
  | b :: bs => leadsWith needle (b :: bs) || occursIn needle bs

/-! ## Lexical signal functions -/

/-- Split a character list at every dot (like `str.split('.')`). -/
def splitOnDot : List Char → List (List Char)
  | [] => [[]]
  | c :: cs =>
    if c = '.' then [] :: splitOnDot cs
    else
      match splitOnDot cs with
      | [] => [[c]]
      | g :: gs => (c :: g) :: gs

/-- `re.match` of the anchored dotted-quad pattern
`^\d{1,3}\.\d{1,3}\.\d{1,3}\.\d{1,3}$` (ASCII digits). -/
def dotted_quad (d : String) : Bool :=
  match splitOnDot d.data with
  | [a, b, c, e] =>
    [a, b, c, e].all fun s => 1 ≤ s.length && s.length ≤ 3 && s.all Char.isDigit
  | _ => false

/-- `having_ip_address`.  A `None` domain makes `re.match` raise `TypeError`,
which the function's own bare `except` turns into `-1`. -/
def having_ip_address (url : String) : Int :=
  match get_domain url with
  | none => -1
  | some d => if dotted_quad d then -1 else 1

def url_length (url : String) : Int :=
  if url.length < 54 then 1
  else if 54 ≤ url.length ∧ url.length ≤ 75 then 0
  else -1

def shortening_services : List String :=
  ["bit.ly", "goo.gl", "t.co", "tinyurl.com", "is.gd", "cli.gs",
   "tr.im", "ow.ly", "tiny.cc"]

/-- `shortening_service`.  `None in [...]` is simply `False` in Python, so a
`None` domain falls through to `1`. -/
def shortening_service (url : String) : Int :=
  match get_domain url with
  | none => 1
  | some d => if d ∈ shortening_services then -1 else 1

def having_at_symbol (url : String) : Int :=
  if url.data.contains '@' then -1 else 1

/-- `double_slash_redirecting`.  `urlparse(url).path` can raise `ValueError`
("Invalid IPv6 URL"); the function has no handler, so that error escapes. -/
def double_slash_redirecting (url : String) : Except PyExn Int :=
  match urlsplit url with
  | .error e => .error e
  | .ok p =>
    .ok (if leadsWith ['/', '/'] p.path.data || occursIn ['/', '/'] (p.path.data.drop 1)
         then -1 else 1)

/-- `prefix_suffix`.  `"-" in None` raises `TypeError`; the function has no
handler, so that error escapes. -/
def prefix_suffix (url : String) : Except PyExn Int :=
  match get_domain url with
  | none => .error .typeError
  | some d => .ok (if d.data.contains '-' then -1 else 1)

/-- `having_sub_domain`.  `None.count('.')` raises `AttributeError`; the
function has no handler, so that error escapes. -/
def having_sub_domain (url : String) : Except PyExn Int :=
  match get_domain url with
  | none => .error .attributeError
  | some d =>
    let dots := (d.data.filter (· = '.')).length
    .ok (if dots = 2 then 0 else if dots > 2 then -1 else 1)

def ssl_final_state (url : String) : Int :=
  if leadsWith "https".data url.data then 1 else -1

/-! ## Network collaborators -/

/-- Outcome of the resolver's A-record query for a host. -/
inductive DnsOutcome
  | found         -- the query returns records
  | noAnswer      -- dns.resolver.NoAnswer
  | nxdomain      -- dns.resolver.NXDOMAIN
  | timeout       -- dns.exception.Timeout
  | otherFailure  -- any other resolver exception, e.g. dns.resolver.NoNameservers
  deriving DecidableEq

/-- The fields of a `python-whois` response the code reads.  Dates are day
counts; a list-valued date in the Python object is collapsed to its first
element, the only element the code ever reads. -/
structure WhoisRecord where
  creation_date : Option Int
  expiration_date : Option Int
  text : String  -- `str(w)`, the raw record text

/-- One `a` element carrying an `href`, as the code analyses it. -/
structure Anchor where
  special : Bool               -- href starts with '#' or 'mailto:', or contains 'javascript:void(0)'
  href_domain : Option String  -- get_domain(urljoin(page url, href))

/-- A fetched-and-parsed page, holding exactly the data the code reads from
the soup.  Each `imgs` entry is one `img` element: `none` when it has no
`src` attribute, otherwise the `get_domain(urljoin(url, src))` result.
`icon` is the first `link` whose `rel` matches "icon": `none` when there is no
such link or it has no `href`, otherwise the resolved href domain. -/
structure Page where
  icon : Option (Option String)
  imgs : List (Option (Option String))
  anchors : List (Option Anchor)

/-- The deterministic environment of network collaborators: `dns d` is the
resolver outcome for host `d`, `whois d` is `none` when the WHOIS call raises,
`fetch u` is `none` when `requests.get` raises or returns a bad status, and
`today` is `datetime.now()` as a day count. -/
structure Env where
  dns : String → DnsOutcome
  whois : String → Option WhoisRecord
  fetch : String → Option Page
  today : Int

/-! ## Network signal functions -/

/-- `domain_registration_length`.  A `None` domain makes `whois.whois` raise,
swallowed by the bare `except` into `-1`; likewise any lookup failure.  The
comparison is `(exp - cre).days / 365 <= 1` with Python's true division. -/
def domain_registration_length (env : Env) (url : String) : Int :=
  match get_domain url with
  | none => -1
  | some d =>
    match env.whois d with
    | none => -1
    | some w =>
      match w.expiration_date, w.creation_date with
      | some exp, some cre => if ((exp - cre : Int) : Rat) / 365 ≤ 1 then -1 else 1
      | _, _ => 1

/-- `age_of_domain`.  Same failure handling as `domain_registration_length`. -/
def age_of_domain (env : Env) (url : String) : Int :=
  match get_domain url with
  | none => -1
  | some d =>
    match env.whois d with
    | none => -1
    | some w =>
      match w.creation_date with
      | some cre => if env.today - cre < 180 then -1 else 1
      | none => 1

/-- `dns_record`.  Only `NoAnswer`, `NXDOMAIN` and `Timeout` are caught; a
`None` domain makes `dns.name.from_text` raise `ValueError`, and any other
resolver exception (e.g. `NoNameservers`) also escapes. -/
def dns_record (env : Env) (url : String) : Except PyExn Int :=
  match get_domain url with
  | none => .error .valueError
  | some d =>
    match env.dns d with
    | .found => .ok 1
    | .noAnswer => .ok (-1)
    | .nxdomain => .ok (-1)
    | .timeout => .ok (-1)
    | .otherFailure => .error .resolverError

/-- `abnormal_url`: `-1` when the domain does not occur case-insensitively in
the raw WHOIS text; every failure is swallowed by the bare `except`. -/
def abnormal_url (env : Env) (url : String) : Int :=
  match get_domain url with
  | none => -1
  | some d =>
    match env.whois d with
    | none => -1
    | some w =>
      if occursIn (d.data.map Char.toLower) (w.text.data.map Char.toLower)
      then 1 else -1

/-! ## Content signal functions -/

/-- `favicon`: `-1` when the page cannot be fetched or the icon link resolves
to a different domain than the page. -/
def favicon (env : Env) (url : String) : Int :=
  match env.fetch url with
  | none => -1
  | some page =>
    match page.icon with
    | none => 1
    | some href_domain => if href_domain ≠ get_domain url then -1 else 1

/-- `request_url`: the external-image percentage bucketed at 22 and 61. -/
def request_url (env : Env) (url : String) : Int :=
  match env.fetch url with
  | none => -1
  | some page =>
    let domain := get_domain url
    let srcs := page.imgs.filterMap id
    let image_count := srcs.length
    let external_image_count := (srcs.filter (fun sd => sd ≠ domain)).length
    if image_count = 0 then 1
    else
      let percentage : Rat := ((external_image_count : Rat) / (image_count : Rat)) * 100
      if percentage < 22 then 1
      else if 22 ≤ percentage ∧ percentage < 61 then 0
      else -1

/-- `url_of_anchor`: the external-anchor percentage bucketed at 31 and 67,
not counting fragment-only, mailto and javascript:void(0) links. -/
def url_of_anchor (env : Env) (url : String) : Int :=
  match env.fetch url with
  | none => -1
  | some page =>
    let domain := get_domain url
    let counted := (page.anchors.filterMap id).filter (fun a => !a.special)
    let anchor_count := counted.length
    let external_anchor_count := (counted.filter (fun a => a.href_domain ≠ domain)).length
    if anchor_count = 0 then 1
    else
      let percentage : Rat := ((external_anchor_count : Rat) / (anchor_count : Rat)) * 100
      if percentage < 31 then 1
      else if 31 ≤ percentage ∧ percentage < 67 then 0
      else -1

/-! ## Constant signal functions -/

def web_traffic (_ : String) : Int := 0
def page_rank (_ : String) : Int := 0
def google_index (_ : String) : Int := 1
def links_pointing_to_page (_ : String) : Int := 0
def port (_ : String) : Int := 1
def https_token (_ : String) : Int := 1
def links_in_tags (_ : String) : Int := 1
def sfh (_ : String) : Int := 1
def submitting_to_email (_ : String) : Int := 1
def redirect (_ : String) : Int := 1
def on_mouseover (_ : String) : Int := 1
def right_click (_ : String) : Int := 1
def popup_window (_ : String) : Int := 1
def iframe (_ : String) : Int := 1
def statistical_report (_ : String) : Int := 1

/-! ## The feature vector and `predict_url` -/

/-- Names for the 30 entries of the `features` list literal in `predict_url`,
one per call, in source order. -/
inductive SlotId
  | havingIpAddress | urlLength | shorteningService | havingAtSymbol
  | doubleSlashRedirecting | prefixSuffix | havingSubDomain | sslFinalState
  | domainRegistrationLength | favicon | port | httpsToken | requestUrl
  | urlOfAnchor | linksInTags | sfh | submittingToEmail | abnormalUrl
  | redirect | onMouseover | rightClick | popupWindow | iframe | ageOfDomain
  | dnsRecord | webTraffic | pageRank | googleIndex | linksPointingToPage
  | statisticalReport
  deriving DecidableEq, BEq

/-- The signal call a slot performs. -/
def evalSlot (s : SlotId) (env : Env) (url : String) : Except PyExn Int :=
  match s with
  | .havingIpAddress => .ok (having_ip_address url)
  | .urlLength => .ok (url_length url)
  | .shorteningService => .ok (shortening_service url)
  | .havingAtSymbol => .ok (having_at_symbol url)
  | .doubleSlashRedirecting => double_slash_redirecting url
  | .prefixSuffix => prefix_suffix url
  | .havingSubDomain => having_sub_domain url
  | .sslFinalState => .ok (ssl_final_state url)
  | .domainRegistrationLength => .ok (domain_registration_length env url)
  | .favicon => .ok (favicon env url)
  | .port => .ok (port url)
  | .httpsToken => .ok (https_token url)
  | .requestUrl => .ok (request_url env url)
  | .urlOfAnchor => .ok (url_of_anchor env url)
  | .linksInTags => .ok (links_in_tags url)
  | .sfh => .ok (sfh url)
  | .submittingToEmail => .ok (submitting_to_email url)
  | .abnormalUrl => .ok (abnormal_url env url)
  | .redirect => .ok (redirect url)
  | .onMouseover => .ok (on_mouseover url)
  | .rightClick => .ok (right_click url)
  | .popupWindow => .ok (popup_window url)
  | .iframe => .ok (iframe url)
  | .ageOfDomain => .ok (age_of_domain env url)
  | .dnsRecord => dns_record env url
  | .webTraffic => .ok (web_traffic url)
  | .pageRank => .ok (page_rank url)
  | .googleIndex => .ok (google_index url)
  | .linksPointingToPage => .ok (links_pointing_to_page url)
  | .statisticalReport => .ok (statistical_report url)

/-- The slots of the `features` list literal, in source order. -/
def slotOrder : List SlotId :=
  [.havingIpAddress, .urlLength, .shorteningService, .havingAtSymbol,
   .doubleSlashRedirecting, .prefixSuffix, .havingSubDomain, .sslFinalState,
   .domainRegistrationLength, .favicon, .port, .httpsToken, .requestUrl,
   .urlOfAnchor, .linksInTags, .sfh, .submittingToEmail, .abnormalUrl,
   .redirect, .onMouseover, .rightClick, .popupWindow, .iframe, .ageOfDomain,
   .dnsRecord, .webTraffic, .pageRank, .googleIndex, .linksPointingToPage,
   .statisticalReport]

/-- Left-to-right evaluation of a Python list display: the first escaping
exception aborts the whole list. -/
def evalSlots (env : Env) (url : String) : List SlotId → Except PyExn (List Int)
  | [] => .ok []
  | s :: rest =>
    match evalSlot s env url with
    | .error e => .error e
    | .ok v =>
      match evalSlots env url rest with
      | .error e => .error e
      | .ok vs => .ok (v :: vs)

/-- The `features` list built inside `predict_url`. -/
def assemble_features (env : Env) (url : String) : Except PyExn (List Int) :=
  evalSlots env url slotOrder

/-- The classifier oracle: `model.predict` / `model.predict_proba`, restricted
to the single-row calls the code makes.  `.error` carries a raised
exception's message. -/
structure Model where
  predict : List Int → Except String Int
  predict_proba : List Int → Except String (List Rat)

/-- The body of `predict_url`'s `try` block: predict, predict_proba, Python's
`max` over the probability list (which raises on an empty list) and the
`label_map.get(prediction, "Unknown")` lookup. -/
def oracle_call (model : Model) (features : List Int) : Except String (String × Rat) :=
  match model.predict features with
  | .error e => .error e
  | .ok prediction =>
    match model.predict_proba features with
    | .error e => .error e
    | .ok probabilities =>
      match probabilities with
      | [] => .error "max() arg is an empty sequence"
      | p :: ps =>
        let confidence := ps.foldl max p
        let label :=
          if prediction = 1 then "Safe"
          else if prediction = 0 then "Neutral"
          else if prediction = -1 then "Unsafe (Phishing)"
          else "Unknown"
        .ok (label, confidence)

/-- `predict_url`: the DNS gate, the feature list, and the guarded oracle
call.  The gate call and the feature list are outside the `try`, so their
exceptions escape; oracle failures are converted to the error label. -/
def predict_url (model : Model) (env : Env) (url : String) :
    Except PyExn (String × Rat) :=
  match dns_record env url with
  | .error e => .error e
  | .ok gate =>
    if gate = -1 then .ok ("Unsafe (Phishing)", 1)
    else
      match assemble_features env url with
      | .error e => .error e
      | .ok features =>
        match oracle_call model features with
        | .ok r => .ok r
        | .error msg => .ok ("Error during prediction: " ++ msg, 0)

/-! ## Concrete collaborators used by the witnesses and counterexamples -/

/-- A model that always answers class 1 with probability 1. -/
def trivialModel : Model :=
  { predict := fun _ => .ok 1, predict_proba := fun _ => .ok [1] }

/-- A model whose prediction call raises. -/
def failModel : Model :=
  { predict := fun _ => .error "boom", predict_proba := fun _ => .ok [] }

/-- Every host resolves; WHOIS and HTTP always fail. -/
def envGood : Env :=
  { dns := fun _ => .found, whois := fun _ => none, fetch := fun _ => none, today := 0 }

/-- Every DNS query answers NXDOMAIN. -/
def envNx : Env :=
  { dns := fun _ => .nxdomain, whois := fun _ => none, fetch := fun _ => none, today := 0 }

/-- Every DNS query fails with a resolver error outside the caught tuple
(e.g. `dns.resolver.NoNameservers`, a SERVFAIL). -/
def envServFail : Env :=
  { dns := fun _ => .otherFailure, whois := fun _ => none, fetch := fun _ => none, today := 0 }

/-- WHOIS lookups succeed but carry no timestamps (missing data). -/
def envNoDates : Env :=
  { dns := fun _ => .found,
    whois := fun _ => some { creation_date := none, expiration_date := none, text := "" },
    fetch := fun _ => none, today := 0 }

/-- A page with 50 images carrying a `src`: 11 resolve to an external host,
39 to the page's own host — an external-image ratio of exactly 22%. -/
def pageC8 : Page :=
  { icon := none,
    imgs := List.replicate 11 (some (some "cdn.example")) ++
            List.replicate 39 (some (some "a.com")),
    anchors := [] }

/-- Serves `pageC8` for every fetch; DNS resolves. -/
def envC8 : Env :=
  { dns := fun _ => .found, whois := fun _ => none, fetch := fun _ => some pageC8, today := 0 }

/-- The feature vector `assemble_features` produces under `envGood` for
`https://example.com`. -/
def fsGood : List Int :=
  [1, 1, 1, 1, 1, 1, 1, 1, -1, -1, 1, 1, -1, -1, 1, 1, 1, -1, 1, 1, 1, 1, 1,
   -1, 1, 0, 0, 1, 0, 1]

/-! ## Helper lemmas -/

theorem str_length_append (s t : String) : (s ++ t).length = s.length + t.length := by
  cases s with
  | mk a =>
    cases t with
    | mk b =>
      show (a ++ b).length = a.length + b.length
      exact List.length_append a b

/-- The error label built by `predict_url` is longer than any string of fewer
than 25 characters, hence distinct from it. -/
theorem error_label_ne (msg s : String) (hs : s.length < 25) :
    "Error during prediction: " ++ msg ≠ s := by
  intro he
  have h := congrArg String.length he
  rw [str_length_append] at h
  have h25 : ("Error during prediction: " : String).length = 25 := rfl
  rw [h25] at h
  omega

/-- Inversion of a successful feature-list assembly: the four fallible slots
succeeded, and the list is the 30 signal values in source order. -/
theorem assemble_features_ok (env : Env) (url : String) (fs : List Int)
    (h : assemble_features env url = .ok fs) :
    ∃ v4 v5 v6 v24,
      double_slash_redirecting url = .ok v4 ∧
      prefix_suffix url = .ok v5 ∧
      having_sub_domain url = .ok v6 ∧
      dns_record env url = .ok v24 ∧
      fs = [having_ip_address url, url_length url, shortening_service url,
            having_at_symbol url, v4, v5, v6, ssl_final_state url,
            domain_registration_length env url, favicon env url, port url,
            https_token url, request_url env url, url_of_anchor env url,
            links_in_tags url, sfh url, submitting_to_email url,
            abnormal_url env url, redirect url, on_mouseover url,
            right_click url, popup_window url, iframe url,
            age_of_domain env url, v24, web_traffic url, page_rank url,
            google_index url, links_pointing_to_page url,
            statistical_report url] := by
  cases h4 : double_slash_redirecting url with
  | error e =>
    exfalso
    simp only [assemble_features, slotOrder, evalSlots, evalSlot, h4] at h
    exact Except.noConfusion h
  | ok v4 =>
    cases h5 : prefix_suffix url with
    | error e =>
      exfalso
      simp only [assemble_features, slotOrder, evalSlots, evalSlot, h4, h5] at h
      exact Except.noConfusion h
    | ok v5 =>
      cases h6 : having_sub_domain url with
      | error e =>
        exfalso
        simp only [assemble_features, slotOrder, evalSlots, evalSlot, h4, h5, h6] at h
        exact Except.noConfusion h
      | ok v6 =>
        cases h24 : dns_record env url with
        | error e =>
          exfalso
          simp only [assemble_features, slotOrder, evalSlots, evalSlot, h4, h5, h6, h24] at h
          exact Except.noConfusion h
        | ok v24 =>
          simp only [assemble_features, slotOrder, evalSlots, evalSlot, h4, h5, h6, h24] at h
          exact ⟨v4, v5, v6, v24, rfl, rfl, rfl, rfl, (Except.ok.inj h).symm⟩

/-- The verdict on the short-circuit path. -/
theorem predict_url_gate_fail (model : Model) (env : Env) (url : String)
    (hdns : dns_record env url = .ok (-1)) :
    predict_url model env url = .ok ("Unsafe (Phishing)", 1) := by
  unfold predict_url
  rw [hdns]
  rfl

/-- The verdict on the oracle path. -/
theorem predict_url_gate_pass (model : Model) (env : Env) (url : String) (fs : List Int)
    (hdns : dns_record env url = .ok 1)
    (hfs : assemble_features env url = .ok fs) :
    predict_url model env url =
      match oracle_call model fs with
      | .ok r => .ok r
      | .error msg => .ok ("Error during prediction: " ++ msg, 0) := by
  unfold predict_url
  rw [hdns, hfs]
  rfl

/-! ## Claims -/

/-- Claim C1, counterexample: under a resolver whose lookups fail with an
exception outside the caught tuple (a SERVFAIL, `dns.resolver.NoNameservers`),
the host's DNS A-record resolution fails, yet `predict_url` propagates the
exception instead of returning the "Unsafe (Phishing)" verdict. -/
theorem c1_counterexample :
    predict_url trivialModel envServFail "https://example.com" = .error .resolverError ∧
    predict_url trivialModel envServFail "https://example.com" ≠
      .ok ("Unsafe (Phishing)", 1) := by
  constructor
  · rfl
  · intro h
    rw [show predict_url trivialModel envServFail "https://example.com" =
          .error .resolverError from rfl] at h
    exact Except.noConfusion h

/-- Claim C1, amended: for every URL whose host's DNS A-record resolution
fails with one of the caught failures (no answer, NXDOMAIN, timeout),
`predict_url` returns exactly ("Unsafe (Phishing)", 1.0) — for every model and
every WHOIS/fetch collaborator, so no other signal is consulted and the oracle
is never invoked. -/
theorem c1_dns_shortcircuit_caught_failures (model : Model) (env : Env)
    (url d : String) (hd : get_domain url = some d)
    (hfail : env.dns d = .noAnswer ∨ env.dns d = .nxdomain ∨ env.dns d = .timeout) :
    predict_url model env url = .ok ("Unsafe (Phishing)", 1) := by
  apply predict_url_gate_fail
  simp only [dns_record, hd]
  rcases hfail with h | h | h <;> rw [h]

/-- Claim C1, witness: an NXDOMAIN host produces the short-circuit verdict. -/
theorem c1_witness :
    predict_url trivialModel envNx "https://example.com" = .ok ("Unsafe (Phishing)", 1) :=
  c1_dns_shortcircuit_caught_failures trivialModel envNx "https://example.com"
    "example.com" rfl (Or.inr (Or.inl rfl))

/-- Claim C2, code-bug evaluation: on the unparsable-host URL "http://[::1"
(CPython's urlsplit raises "Invalid IPv6 URL", so `get_domain` yields None),
`prefix_suffix`, `having_sub_domain` and `double_slash_redirecting` raise
TypeError/AttributeError/ValueError instead of returning -1. -/
theorem c2_signals_raise_on_unparsable_host :
    prefix_suffix "http://[::1" = .error .typeError ∧
    having_sub_domain "http://[::1" = .error .attributeError ∧
    double_slash_redirecting "http://[::1" = .error .valueError :=
  ⟨rfl, rfl, rfl⟩

/-- Claim C3: when the DNS gate succeeds and the feature list assembles, the
vector has exactly 30 slots filled by the signal functions in the fixed
order IP-literal, length, shortening, at-symbol, double-slash, prefix/suffix,
subdomain-depth, scheme, registration-span, favicon, port, https-token,
request-url, anchor-origin, links-in-tags, SFH, submit-to-email,
WHOIS-anomaly, redirect, mouseover, right-click, popup, iframe, domain-age,
DNS, web-traffic, page-rank, google-index, links-pointing-to-page,
statistical-report. -/
theorem c3_feature_vector_thirty_slots (env : Env) (url : String) (fs : List Int)
    (hdns : dns_record env url = .ok 1)
    (hfs : assemble_features env url = .ok fs) :
    fs.length = 30 ∧ ∃ v4 v5 v6,
      double_slash_redirecting url = .ok v4 ∧
      prefix_suffix url = .ok v5 ∧
      having_sub_domain url = .ok v6 ∧
      fs = [having_ip_address url, url_length url, shortening_service url,
            having_at_symbol url, v4, v5, v6, ssl_final_state url,
            domain_registration_length env url, favicon env url, port url,
            https_token url, request_url env url, url_of_anchor env url,
            links_in_tags url, sfh url, submitting_to_email url,
            abnormal_url env url, redirect url, on_mouseover url,
            right_click url, popup_window url, iframe url,
            age_of_domain env url, 1, web_traffic url, page_rank url,
            google_index url, links_pointing_to_page url,
            statistical_report url] := by
  obtain ⟨v4, v5, v6, v24, h4, h5, h6, h24, rfl⟩ := assemble_features_ok env url fs hfs
  have hv : v24 = 1 := (Except.ok.inj (hdns.symm.trans h24)).symm
  subst hv
  exact ⟨rfl, v4, v5, v6, h4, h5, h6, rfl⟩

/-- Claim C3, witness: a concrete resolvable URL assembles a 30-slot vector. -/
theorem c3_witness :
    assemble_features envGood "https://example.com" = .ok fsGood ∧ fsGood.length = 30 :=
  ⟨rfl, (c3_feature_vector_thirty_slots envGood "https://example.com" fsGood rfl rfl).1⟩

/-- Claim C4, counterexample: the DNS signal does not occupy two of the 30
vector slots. -/
theorem c4_counterexample : slotOrder.count SlotId.dnsRecord ≠ 2 := by decide

/-- Claim C4, amended: the DNS signal occupies exactly one of the 30 vector
slots (index 24, the canonical training-data position); `dns_record` is
additionally invoked once before assembly as the short-circuit gate, which is
not a vector slot. -/
theorem c4_dns_slot_once_and_gate :
    slotOrder.count SlotId.dnsRecord = 1 ∧
    slotOrder.length = 30 ∧
    slotOrder.get? 24 = some SlotId.dnsRecord ∧
    (∀ env url, evalSlot SlotId.dnsRecord env url = dns_record env url) ∧
    ∀ (model : Model) (env : Env) (url : String),
      dns_record env url = .ok (-1) →
      predict_url model env url = .ok ("Unsafe (Phishing)", 1) :=
  ⟨by decide, by decide, by decide, fun _ _ => rfl,
   fun model env url h => predict_url_gate_fail model env url h⟩

/-- Claim C4, witness: the gate invocation short-circuits a failing host. -/
theorem c4_witness :
    predict_url trivialModel envNx "https://nx.example" = .ok ("Unsafe (Phishing)", 1) :=
  c4_dns_slot_once_and_gate.2.2.2.2 trivialModel envNx "https://nx.example" rfl

/-- Claim C5, counterexample: a WHOIS response with no timestamps (missing
data) makes the registration-span signal return 1, not -1. -/
theorem c5_counterexample :
    domain_registration_length envNoDates "https://example.com" = 1 ∧
    domain_registration_length envNoDates "https://example.com" ≠ -1 :=
  ⟨rfl, by decide⟩

/-- Claim C5, amended: the WHOIS-backed signals (registration span, domain
age, WHOIS-text anomaly) return -1 on every lookup exception; missing
timestamps are not failures and yield 1 through the default branch.  The DNS
signal returns -1 on the three caught failures (no answer, NXDOMAIN, timeout)
but propagates any other resolver exception. -/
theorem c5_network_signal_failure_handling (env : Env) (url : String) (d : String)
    (hd : get_domain url = some d) :
    (env.whois d = none →
      domain_registration_length env url = -1 ∧ age_of_domain env url = -1 ∧
      abnormal_url env url = -1) ∧
    (∀ w, env.whois d = some w → w.creation_date = none → w.expiration_date = none →
      domain_registration_length env url = 1 ∧ age_of_domain env url = 1) ∧
    ((env.dns d = .noAnswer ∨ env.dns d = .nxdomain ∨ env.dns d = .timeout) →
      dns_record env url = .ok (-1)) ∧
    (env.dns d = .otherFailure → dns_record env url = .error .resolverError) := by
  refine ⟨fun hw => ⟨?_, ?_, ?_⟩, fun w hw hc he => ⟨?_, ?_⟩, fun hdns => ?_, fun hdns => ?_⟩
  · simp only [domain_registration_length, hd, hw]
  · simp only [age_of_domain, hd, hw]
  · simp only [abnormal_url, hd, hw]
  · simp only [domain_registration_length, hd, hw, hc, he]
  · simp only [age_of_domain, hd, hw, hc]
  · simp only [dns_record, hd]
    rcases hdns with h | h | h <;> rw [h]
  · simp only [dns_record, hd, hdns]

/-- Claim C5, witness: a raising WHOIS lookup yields -1. -/
theorem c5_witness : domain_registration_length envGood "https://example.com" = -1 :=
  ((c5_network_signal_failure_handling envGood "https://example.com"
    "example.com" rfl).1 rfl).1

/-- Claim C6: when the oracle call fails with message `msg`, `predict_url`
returns the error label "Error during prediction: msg" with confidence 0, and
that label differs from each of the three classification labels. -/
theorem c6_oracle_failure_distinct_error (model : Model) (env : Env) (url : String)
    (fs : List Int) (msg : String)
    (hdns : dns_record env url = .ok 1)
    (hfs : assemble_features env url = .ok fs)
    (hfail : oracle_call model fs = .error msg) :
    predict_url model env url = .ok ("Error during prediction: " ++ msg, 0) ∧
    "Error during prediction: " ++ msg ≠ "Safe" ∧
    "Error during prediction: " ++ msg ≠ "Neutral" ∧
    "Error during prediction: " ++ msg ≠ "Unsafe (Phishing)" := by
  refine ⟨?_, error_label_ne msg "Safe" (by decide),
    error_label_ne msg "Neutral" (by decide),
    error_label_ne msg "Unsafe (Phishing)" (by decide)⟩
  rw [predict_url_gate_pass model env url fs hdns hfs, hfail]

/-- Claim C6, witness: a concrete failing oracle produces the error label. -/
theorem c6_witness :
    predict_url failModel envGood "https://example.com" =
      .ok ("Error during prediction: " ++ "boom", 0) ∧
    "Error during prediction: " ++ "boom" ≠ "Safe" ∧
    "Error during prediction: " ++ "boom" ≠ "Neutral" ∧
    "Error during prediction: " ++ "boom" ≠ "Unsafe (Phishing)" :=
  c6_oracle_failure_distinct_error failModel envGood "https://example.com"
    fsGood "boom" rfl rfl rfl

/-- Claim C7: the URL-length signal depends only on the string's length, with
values 1, 0, 0, -1 at lengths 53, 54, 75, 76. -/
theorem c7_url_length_boundaries (url : String) :
    (url.length = 53 → url_length url = 1) ∧
    (url.length = 54 → url_length url = 0) ∧
    (url.length = 75 → url_length url = 0) ∧
    (url.length = 76 → url_length url = -1) ∧
    ∀ v : String, v.length = url.length → url_length v = url_length url := by
  unfold url_length
  refine ⟨fun h => ?_, fun h => ?_, fun h => ?_, fun h => ?_, fun v hv => ?_⟩
  · rw [h]; decide
  · rw [h]; decide
  · rw [h]; decide
  · rw [h]; decide
  · rw [hv]

/-- Claim C7, witness: concrete strings at the boundary lengths. -/
theorem c7_witness :
    url_length (String.mk (List.replicate 53 'a')) = 1 ∧
    url_length (String.mk (List.replicate 54 'a')) = 0 ∧
    url_length (String.mk (List.replicate 75 'a')) = 0 ∧
    url_length (String.mk (List.replicate 76 'a')) = -1 :=
  ⟨(c7_url_length_boundaries _).1 (by decide),
   (c7_url_length_boundaries _).2.1 (by decide),
   (c7_url_length_boundaries _).2.2.1 (by decide),
   (c7_url_length_boundaries _).2.2.2.1 (by decide)⟩

/-- Claim C8: with at least one `img` carrying a `src`, the external-image
percentage is bucketed with an inclusive lower bound at 22 and an exclusive
upper bound at 61; a ratio of exactly 22% falls in the 0 bucket. -/
theorem c8_request_url_buckets (env : Env) (url : String) (page : Page) (n k : ℕ)
    (hf : env.fetch url = some page)
    (hn : n = (page.imgs.filterMap id).length)
    (hk : k = ((page.imgs.filterMap id).filter
                 (fun sd => sd ≠ get_domain url)).length)
    (hpos : 0 < n) :
    (100 * k < 22 * n → request_url env url = 1) ∧
    (22 * n ≤ 100 * k ∧ 100 * k < 61 * n → request_url env url = 0) ∧
    (61 * n ≤ 100 * k → request_url env url = -1) ∧
    (100 * k = 22 * n → request_url env url = 0) := by
  have hn0 : (0 : ℚ) < (n : ℚ) := by exact_mod_cast hpos
  have hval : request_url env url =
      (if ((k : ℚ) / (n : ℚ)) * 100 < 22 then 1
       else if 22 ≤ ((k : ℚ) / (n : ℚ)) * 100 ∧ ((k : ℚ) / (n : ℚ)) * 100 < 61 then 0
       else -1) := by
    simp only [request_url, hf]
    rw [← hk, ← hn]
    rw [if_neg (by omega : ¬ n = 0)]
  have hq : ((k : ℚ) / (n : ℚ)) * 100 = (100 * (k : ℚ)) / (n : ℚ) := by ring
  have lt22 : (((k : ℚ) / (n : ℚ)) * 100 < 22) ↔ 100 * k < 22 * n := by
    rw [hq, div_lt_iff₀ hn0]
    exact_mod_cast Iff.rfl
  have le22 : ((22 : ℚ) ≤ ((k : ℚ) / (n : ℚ)) * 100) ↔ 22 * n ≤ 100 * k := by
    rw [hq, le_div_iff₀ hn0]
    exact_mod_cast Iff.rfl
  have lt61 : (((k : ℚ) / (n : ℚ)) * 100 < 61) ↔ 100 * k < 61 * n := by
    rw [hq, div_lt_iff₀ hn0]
    exact_mod_cast Iff.rfl
  refine ⟨fun h => ?_, fun h => ?_, fun h => ?_, fun h => ?_⟩
  · rw [hval, if_pos (lt22.mpr h)]
  · rw [hval, if_neg (by rw [lt22]; omega), if_pos ⟨le22.mpr h.1, lt61.mpr h.2⟩]
  · rw [hval, if_neg (by rw [lt22]; omega), if_neg ?_]
    intro hc
    rw [lt61] at hc
    omega
  · rw [hval, if_neg (by rw [lt22]; omega),
      if_pos ⟨le22.mpr (by omega), lt61.mpr (by omega)⟩]

/-- Claim C8, witness: a page whose image ratio is exactly 22% (11 of 50)
lands in the 0 bucket. -/
theorem c8_witness : request_url envC8 "https://a.com" = 0 :=
  (c8_request_url_buckets envC8 "https://a.com" pageC8 50 11 rfl (by decide)
    (by decide) (by decide)).2.2.2 (by decide)

/-- Claim C9, counterexample: the URL "https://" parses to an empty host, and
the hyphen signal returns 1 on it, not -1. -/
theorem c9_counterexample :
    get_domain "https://" = some "" ∧
    prefix_suffix "https://" = .ok 1 ∧
    prefix_suffix "https://" ≠ .ok (-1) := by
  refine ⟨rfl, rfl, fun h => ?_⟩
  rw [show prefix_suffix "https://" = .ok 1 from rfl] at h
  exact absurd (Except.ok.inj h) (by decide)

/-- Claim C9, amended: the hyphen signal returns -1 exactly when the parsed
host contains a hyphen and 1 otherwise — the empty host yields 1 — and on an
unparsable host (None) it raises a TypeError instead of returning -1. -/
theorem c9_prefix_suffix_cases (url : String) :
    (∀ d, get_domain url = some d →
      prefix_suffix url = .ok (if d.data.contains '-' then -1 else 1)) ∧
    (get_domain url = none → prefix_suffix url = .error .typeError) := by
  constructor
  · intro d hd
    simp only [prefix_suffix, hd]
  · intro hd
    simp only [prefix_suffix, hd]

/-- Claim C9, witness: a hyphenated host yields -1. -/
theorem c9_witness : prefix_suffix "https://a-b.com" = .ok (-1) := by
  have h := (c9_prefix_suffix_cases "https://a-b.com").1 "a-b.com" rfl
  exact h

/-- Claim C10: under the (deterministic) environment, whenever the gate
passes and the vector assembles, its DNS slot (index 24) is 1, and
`predict_url` hands exactly that vector to the oracle. -/
theorem c10_oracle_vector_dns_slot_one (env : Env) (url : String) (fs : List Int)
    (hdns : dns_record env url = .ok 1)
    (hfs : assemble_features env url = .ok fs) :
    fs.get? 24 = some 1 ∧
    ∀ model : Model, predict_url model env url =
      match oracle_call model fs with
      | .ok r => .ok r
      | .error msg => .ok ("Error during prediction: " ++ msg, 0) := by
  obtain ⟨v4, v5, v6, v24, h4, h5, h6, h24, rfl⟩ := assemble_features_ok env url fs hfs
  have hv : v24 = 1 := (Except.ok.inj (hdns.symm.trans h24)).symm
  subst hv
  exact ⟨rfl, fun model => predict_url_gate_pass model env url _ hdns hfs⟩

/-- Claim C10, witness: the concrete vector for a resolvable URL carries 1 in
slot 24. -/
theorem c10_witness : fsGood.get? 24 = some 1 :=
  (c10_oracle_vector_dns_slot_one envGood "https://example.com" fsGood rfl rfl).1

end Phish
